import Mathlib

/-!
Verification of the shape-streaming/fallback gateway of the agent-kanban
remote crate, shallowly embedded from:

* crates/remote/src/shapes.rs          — the shape registry constants
* crates/remote/src/shape_route.rs     — scopes, fallback query types, proxy handlers
* crates/remote/src/shape_routes.rs    — route registration and fallback handlers
* crates/remote/src/routes/electric_proxy.rs — the upstream proxy forwarder

External collaborators (the data store repositories and the authorization
predicates living outside the provided sources) are modelled as oracles
carried in an environment record, as the spec prescribes.
-/

set_option maxRecDepth 100000

namespace AgentKanban

/-- A shape definition, mirroring the fields produced by the
repository's define_shape macro in crates/remote/src/shapes.rs:
a physical table, a predicate template with ordinal placeholders,
the streaming-route URL and the ordered positional parameter names. -/
structure ShapeDefinition where
  name : String
  table : String
  where_clause : String
  url : String
  params : List String
deriving DecidableEq, Repr

def PROJECTS_SHAPE : ShapeDefinition :=
  { name := "PROJECTS_SHAPE"
    table := "projects"
    where_clause := "\"organization_id\" = $1"
    url := "/shape/projects"
    params := ["organization_id"] }

def NOTIFICATIONS_SHAPE : ShapeDefinition :=
  { name := "NOTIFICATIONS_SHAPE"
    table := "notifications"
    where_clause := "\"organization_id\" = $1 AND \"user_id\" = $2"
    url := "/shape/notifications"
    params := ["organization_id", "user_id"] }

def ORGANIZATION_MEMBERS_SHAPE : ShapeDefinition :=
  { name := "ORGANIZATION_MEMBERS_SHAPE"
    table := "organization_member_metadata"
    where_clause := "\"organization_id\" = $1"
    url := "/shape/organization_members"
    params := ["organization_id"] }

def USERS_SHAPE : ShapeDefinition :=
  { name := "USERS_SHAPE"
    table := "users"
    where_clause := "\"id\" IN (SELECT user_id FROM organization_member_metadata WHERE \"organization_id\" = $1)"
    url := "/shape/users"
    params := ["organization_id"] }

def PROJECT_TAGS_SHAPE : ShapeDefinition :=
  { name := "PROJECT_TAGS_SHAPE"
    table := "tags"
    where_clause := "\"project_id\" = $1"
    url := "/shape/project/{project_id}/tags"
    params := ["project_id"] }

def PROJECT_PROJECT_STATUSES_SHAPE : ShapeDefinition :=
  { name := "PROJECT_PROJECT_STATUSES_SHAPE"
    table := "project_statuses"
    where_clause := "\"project_id\" = $1"
    url := "/shape/project/{project_id}/project_statuses"
    params := ["project_id"] }

def PROJECT_ISSUES_SHAPE : ShapeDefinition :=
  { name := "PROJECT_ISSUES_SHAPE"
    table := "issues"
    where_clause := "\"project_id\" = $1"
    url := "/shape/project/{project_id}/issues"
    params := ["project_id"] }

def USER_WORKSPACES_SHAPE : ShapeDefinition :=
  { name := "USER_WORKSPACES_SHAPE"
    table := "workspaces"
    where_clause := "\"owner_user_id\" = $1"
    url := "/shape/user/workspaces"
    params := ["owner_user_id"] }

def PROJECT_WORKSPACES_SHAPE : ShapeDefinition :=
  { name := "PROJECT_WORKSPACES_SHAPE"
    table := "workspaces"
    where_clause := "\"project_id\" = $1"
    url := "/shape/project/{project_id}/workspaces"
    params := ["project_id"] }

def PROJECT_ISSUE_ASSIGNEES_SHAPE : ShapeDefinition :=
  { name := "PROJECT_ISSUE_ASSIGNEES_SHAPE"
    table := "issue_assignees"
    where_clause := "\"issue_id\" IN (SELECT id FROM issues WHERE \"project_id\" = $1)"
    url := "/shape/project/{project_id}/issue_assignees"
    params := ["project_id"] }

def PROJECT_ISSUE_FOLLOWERS_SHAPE : ShapeDefinition :=
  { name := "PROJECT_ISSUE_FOLLOWERS_SHAPE"
    table := "issue_followers"
    where_clause := "\"issue_id\" IN (SELECT id FROM issues WHERE \"project_id\" = $1)"
    url := "/shape/project/{project_id}/issue_followers"
    params := ["project_id"] }

def PROJECT_ISSUE_TAGS_SHAPE : ShapeDefinition :=
  { name := "PROJECT_ISSUE_TAGS_SHAPE"
    table := "issue_tags"
    where_clause := "\"issue_id\" IN (SELECT id FROM issues WHERE \"project_id\" = $1)"
    url := "/shape/project/{project_id}/issue_tags"
    params := ["project_id"] }

def PROJECT_ISSUE_RELATIONSHIPS_SHAPE : ShapeDefinition :=
  { name := "PROJECT_ISSUE_RELATIONSHIPS_SHAPE"
    table := "issue_relationships"
    where_clause := "\"issue_id\" IN (SELECT id FROM issues WHERE \"project_id\" = $1)"
    url := "/shape/project/{project_id}/issue_relationships"
    params := ["project_id"] }

def PROJECT_PULL_REQUESTS_SHAPE : ShapeDefinition :=
  { name := "PROJECT_PULL_REQUESTS_SHAPE"
    table := "pull_requests"
    where_clause := "\"issue_id\" IN (SELECT id FROM issues WHERE \"project_id\" = $1)"
    url := "/shape/project/{project_id}/pull_requests"
    params := ["project_id"] }

def ISSUE_COMMENTS_SHAPE : ShapeDefinition :=
  { name := "ISSUE_COMMENTS_SHAPE"
    table := "issue_comments"
    where_clause := "\"issue_id\" = $1"
    url := "/shape/issue/{issue_id}/comments"
    params := ["issue_id"] }

def ISSUE_REACTIONS_SHAPE : ShapeDefinition :=
  { name := "ISSUE_REACTIONS_SHAPE"
    table := "issue_comment_reactions"
    where_clause := "\"comment_id\" IN (SELECT id FROM issue_comments WHERE \"issue_id\" = $1)"
    url := "/shape/issue/{issue_id}/reactions"
    params := ["issue_id"] }

/-- The shape registry: every ShapeDefinition constant declared in
crates/remote/src/shapes.rs, in file order. -/
def allShapes : List ShapeDefinition :=
  [PROJECTS_SHAPE, NOTIFICATIONS_SHAPE, ORGANIZATION_MEMBERS_SHAPE, USERS_SHAPE,
   PROJECT_TAGS_SHAPE, PROJECT_PROJECT_STATUSES_SHAPE, PROJECT_ISSUES_SHAPE,
   USER_WORKSPACES_SHAPE, PROJECT_WORKSPACES_SHAPE,
   PROJECT_ISSUE_ASSIGNEES_SHAPE, PROJECT_ISSUE_FOLLOWERS_SHAPE,
   PROJECT_ISSUE_TAGS_SHAPE, PROJECT_ISSUE_RELATIONSHIPS_SHAPE,
   PROJECT_PULL_REQUESTS_SHAPE, ISSUE_COMMENTS_SHAPE, ISSUE_REACTIONS_SHAPE]

/-- Count of ordinal placeholders in a predicate template: occurrences of
a dollar sign immediately followed by a digit. -/
def countPlaceholders (s : String) : Nat :=
  (s.toList.foldl
    (fun (acc : Nat × Bool) c =>
      if acc.2 && c.isDigit then (acc.1 + 1, false)
      else (acc.1, c = '$'))
    (0, false)).1

/-- The authorization scope of a shape route, from ShapeScope in
crates/remote/src/shape_route.rs. -/
inductive ShapeScope where
  | Org
  | OrgWithUser
  | Project
  | Issue
  | User
deriving DecidableEq, Repr

/-- The query-parameter struct a fallback handler declares through its
axum Query extractor, from crates/remote/src/shape_route.rs. -/
inductive FallbackParamKind where
  | OrgQuery
  | ProjectQuery
  | IssueQuery
  | NoParams
deriving DecidableEq, Repr

/-- A registered shape route: the shape, its scope, the fallback URL, the
query type the fallback handler extracts, the single field name of the
success-envelope struct the fallback handler serializes, and the resource
word used in its data-store failure message. All fields are transcribed
from crates/remote/src/shape_routes.rs. -/
structure ShapeRouteReg where
  shape : ShapeDefinition
  scope : ShapeScope
  fallback_url : String
  fallbackQuery : FallbackParamKind
  envelopeField : String
  resource : String
deriving DecidableEq, Repr

def projectsRoute : ShapeRouteReg :=
  { shape := PROJECTS_SHAPE, scope := .Org, fallback_url := "/fallback/projects"
    fallbackQuery := .OrgQuery, envelopeField := "projects", resource := "projects" }

def notificationsRoute : ShapeRouteReg :=
  { shape := NOTIFICATIONS_SHAPE, scope := .OrgWithUser, fallback_url := "/fallback/notifications"
    fallbackQuery := .OrgQuery, envelopeField := "notifications", resource := "notifications" }

def organizationMembersRoute : ShapeRouteReg :=
  { shape := ORGANIZATION_MEMBERS_SHAPE, scope := .Org, fallback_url := "/fallback/organization_members"
    fallbackQuery := .OrgQuery, envelopeField := "organization_member_metadata"
    resource := "organization members" }

def usersRoute : ShapeRouteReg :=
  { shape := USERS_SHAPE, scope := .Org, fallback_url := "/fallback/users"
    fallbackQuery := .OrgQuery, envelopeField := "users", resource := "users" }

def tagsRoute : ShapeRouteReg :=
  { shape := PROJECT_TAGS_SHAPE, scope := .Project, fallback_url := "/fallback/tags"
    fallbackQuery := .ProjectQuery, envelopeField := "tags", resource := "tags" }

def projectStatusesRoute : ShapeRouteReg :=
  { shape := PROJECT_PROJECT_STATUSES_SHAPE, scope := .Project, fallback_url := "/fallback/project_statuses"
    fallbackQuery := .ProjectQuery, envelopeField := "project_statuses", resource := "project statuses" }

def issuesRoute : ShapeRouteReg :=
  { shape := PROJECT_ISSUES_SHAPE, scope := .Project, fallback_url := "/fallback/issues"
    fallbackQuery := .ProjectQuery, envelopeField := "issues", resource := "issues" }

def userWorkspacesRoute : ShapeRouteReg :=
  { shape := USER_WORKSPACES_SHAPE, scope := .User, fallback_url := "/fallback/user_workspaces"
    fallbackQuery := .NoParams, envelopeField := "workspaces", resource := "workspaces" }

def projectWorkspacesRoute : ShapeRouteReg :=
  { shape := PROJECT_WORKSPACES_SHAPE, scope := .Project, fallback_url := "/fallback/project_workspaces"
    fallbackQuery := .ProjectQuery, envelopeField := "workspaces", resource := "workspaces" }

def issueAssigneesRoute : ShapeRouteReg :=
  { shape := PROJECT_ISSUE_ASSIGNEES_SHAPE, scope := .Project, fallback_url := "/fallback/issue_assignees"
    fallbackQuery := .ProjectQuery, envelopeField := "issue_assignees", resource := "issue assignees" }

def issueFollowersRoute : ShapeRouteReg :=
  { shape := PROJECT_ISSUE_FOLLOWERS_SHAPE, scope := .Project, fallback_url := "/fallback/issue_followers"
    fallbackQuery := .ProjectQuery, envelopeField := "issue_followers", resource := "issue followers" }

def issueTagsRoute : ShapeRouteReg :=
  { shape := PROJECT_ISSUE_TAGS_SHAPE, scope := .Project, fallback_url := "/fallback/issue_tags"
    fallbackQuery := .ProjectQuery, envelopeField := "issue_tags", resource := "issue tags" }

def issueRelationshipsRoute : ShapeRouteReg :=
  { shape := PROJECT_ISSUE_RELATIONSHIPS_SHAPE, scope := .Project, fallback_url := "/fallback/issue_relationships"
    fallbackQuery := .ProjectQuery, envelopeField := "issue_relationships", resource := "issue relationships" }

def pullRequestsRoute : ShapeRouteReg :=
  { shape := PROJECT_PULL_REQUESTS_SHAPE, scope := .Project, fallback_url := "/fallback/pull_requests"
    fallbackQuery := .ProjectQuery, envelopeField := "pull_requests", resource := "pull requests" }

def issueCommentsRoute : ShapeRouteReg :=
  { shape := ISSUE_COMMENTS_SHAPE, scope := .Issue, fallback_url := "/fallback/issue_comments"
    fallbackQuery := .IssueQuery, envelopeField := "issue_comments", resource := "issue comments" }

def issueCommentReactionsRoute : ShapeRouteReg :=
  { shape := ISSUE_REACTIONS_SHAPE, scope := .Issue, fallback_url := "/fallback/issue_comment_reactions"
    fallbackQuery := .IssueQuery, envelopeField := "issue_comment_reactions"
    resource := "issue comment reactions" }

/-- The route registry built by all_shape_routes in
crates/remote/src/shape_routes.rs, in registration order. -/
def all_shape_routes : List ShapeRouteReg :=
  [projectsRoute, notificationsRoute, organizationMembersRoute, usersRoute,
   tagsRoute, projectStatusesRoute, issuesRoute, userWorkspacesRoute,
   projectWorkspacesRoute, issueAssigneesRoute, issueFollowersRoute,
   issueTagsRoute, issueRelationshipsRoute, pullRequestsRoute,
   issueCommentsRoute, issueCommentReactionsRoute]

-- =============================================================================
-- Proxy forwarder (crates/remote/src/routes/electric_proxy.rs)
-- =============================================================================

/-- The allowlist of client transport-control query keys forwarded upstream,
ELECTRIC_PARAMS in electric_proxy.rs. -/
def ELECTRIC_PARAMS : List String := ["offset", "handle", "live", "cursor", "columns"]

def isElectricParam (k : String) : Bool := ELECTRIC_PARAMS.contains k

/-- The upstream query key for the i-th bound value, as formatted by
proxy_table. -/
def paramsKey (i : Nat) : String := "params[" ++ Nat.repr i ++ "]"

/-- The positional parameter pairs proxy_table appends: bound value j
(0-based) goes to key params[j+1]. -/
def paramsPairs (bound : List String) : List (String × String) :=
  bound.enum.map (fun p => (paramsKey (p.1 + 1), p.2))

/-- The shared-secret pair proxy_table appends when electric_secret is
configured. -/
def secretPairs : Option String → List (String × String)
  | some s => [("secret", s)]
  | none => []

/-- The ordered query-pair list of the upstream URL proxy_table builds:
server-fixed table and where pairs, then the positional parameter pairs,
then the allowlisted client pairs, then the optional secret. -/
def proxyQueryPairs (secret : Option String) (shape : ShapeDefinition)
    (clientParams : List (String × String)) (bound : List String) :
    List (String × String) :=
  ("table", shape.table) :: ("where", shape.where_clause) ::
    (paramsPairs bound
      ++ clientParams.filter (fun p => isElectricParam p.1)
      ++ secretPairs secret)

/-- The error type of the proxy forwarder, ProxyError in
electric_proxy.rs. -/
inductive ProxyError where
  | Connection (err : String)
  | InvalidConfig (msg : String)
  | Authorization (msg : String)
deriving DecidableEq, Repr

/-- The IntoResponse conversion of ProxyError: status code and body. -/
def ProxyError.intoResponse : ProxyError → Nat × String
  | .Connection _ => (502, "failed to connect to Electric service")
  | .InvalidConfig _ => (500, "internal server error")
  | .Authorization _ => (403, "forbidden")

-- =============================================================================
-- Header relay (the response-header loop of proxy_table)
-- =============================================================================

/-- HeaderMap insert semantics: any existing values for the key are
replaced by the single new value. Header names are the lowercase
normalized form the http crate stores. -/
def headerInsert (hs : List (String × String)) (k v : String) :
    List (String × String) :=
  hs.filter (fun p => p.1 != k) ++ [(k, v)]

/-- True for the header names proxy_table skips when copying the upstream
response: content-encoding and content-length. -/
def isDroppedHeader (k : String) : Bool :=
  k == "content-encoding" || k == "content-length"

/-- The header-copy loop of proxy_table: each upstream pair is skipped if
dropped, otherwise inserted (replacing earlier values for the name). -/
def copyHeaders (upstream : List (String × String)) : List (String × String) :=
  upstream.foldl
    (fun acc p => if isDroppedHeader p.1 then acc else headerInsert acc p.1 p.2)
    []

/-- The full header relay of proxy_table: copy, then insert
Vary: Authorization. -/
def relayHeaders (upstream : List (String × String)) : List (String × String) :=
  headerInsert (copyHeaders upstream) "vary" "Authorization"

/-- The relayed response proxy_table returns on upstream success: the
upstream status unchanged and the relayed headers (the body is streamed
through unmodified). -/
def relayResponse (status : Nat) (upstream : List (String × String)) :
    Nat × List (String × String) :=
  (status, relayHeaders upstream)

/-- All values a header multimap holds for a name, in order. -/
def getAll (hs : List (String × String)) (k : String) : List String :=
  (hs.filter (fun p => p.1 == k)).map Prod.snd

/-- The value of the last occurrence of a header name in an upstream
header list, if any. -/
def lastVal : List (String × String) → String → Option String
  | [], _ => none
  | p :: rest, k =>
    match lastVal rest k with
    | some v => some v
    | none => if p.1 == k then some p.2 else none

-- =============================================================================
-- Request/handler execution model
-- (crates/remote/src/shape_route.rs and shape_routes.rs)
-- =============================================================================

/-- An incoming GET request: the path captures axum bound for the matched
route and the parsed query-string pairs. -/
structure Request where
  pathParams : List (String × String)
  queryParams : List (String × String)
deriving Repr

/-- First value bound to a parameter name, as an axum extractor reads it. -/
def lookupParam (ps : List (String × String)) (k : String) : Option String :=
  (ps.find? (fun p => p.1 == k)).map (fun p => p.2)

/-- Observable effects of one request: the authorization check run, an
upstream (Electric) forward, or a data-store list query. -/
inductive Event where
  | authCheck (kind : String) (keys : List String)
  | upstreamQuery (pairs : List (String × String))
  | storeList (table : String) (keys : List String)
deriving DecidableEq, Repr

def Event.isQuery : Event → Bool
  | .authCheck _ _ => false
  | .upstreamQuery _ => true
  | .storeList _ _ => true

/-- The upstream-forward and data-store queries of a trace. -/
def queryEvents (tr : List Event) : List Event := tr.filter Event.isQuery

/-- The environment of external collaborators: the authorization
predicates of crate::db::organization_members, the repository list
capability, the proxy configuration, and the upstream origin's reply.
Modelled from the spec: these collaborators are external to the provided
sources and are represented as oracles. -/
structure Env where
  isMember : String → String → Bool
  projAccess : String → String → Bool
  issueAccess : String → String → Bool
  storeList : String → List String → Except String (List String)
  cfgValid : Bool
  secret : Option String
  connectionFails : Bool
  upstreamStatus : Nat
  upstreamHeaders : List (String × String)

/-- A fallback handler's outcome: the single-field JSON envelope or an
error response (status, body). -/
inductive FbResp where
  | ok (field : String) (rows : List String)
  | err (status : Nat) (msg : String)
deriving DecidableEq, Repr

def FbResp.status : FbResp → Nat
  | .ok _ _ => 200
  | .err s _ => s

/-- A streaming handler's outcome: the relayed upstream response, a
ProxyError, or an extractor rejection before the handler body ran. -/
inductive StreamResp where
  | relay (status : Nat) (headers : List (String × String))
  | err (e : ProxyError)
  | reject (status : Nat)
deriving DecidableEq, Repr

def StreamResp.status : StreamResp → Nat
  | .relay s _ => s
  | .err e => e.intoResponse.1
  | .reject s => s

/-- The ordered values each scope binds into the shape's placeholders, as
build_proxy_handler passes them to proxy_table. -/
def streamBoundValues (scope : ShapeScope) (key u : String) : List String :=
  match scope with
  | .Org => [key]
  | .OrgWithUser => [key, u]
  | .Project => [key]
  | .Issue => [key]
  | .User => [u]

/-- The authorization-check event a scope emits, naming the predicate
build_proxy_handler (and the matching fallback handler) runs. -/
def authEvent (scope : ShapeScope) (key u : String) : Event :=
  match scope with
  | .Org | .OrgWithUser => .authCheck "membership" [key, u]
  | .Project => .authCheck "project_access" [key, u]
  | .Issue => .authCheck "issue_access" [key, u]
  | .User => .authCheck "none" [u]

/-- The body of proxy_table as a trace-producing computation: parse the
configured base URL (failing with InvalidConfig before any forward),
build the query pairs, issue the single upstream request, and either
surface the connection failure or relay status and headers. -/
def proxyTableRun (env : Env) (shape : ShapeDefinition)
    (clientParams : List (String × String)) (bound : List String) :
    List Event × StreamResp :=
  if env.cfgValid then
    let pairs := proxyQueryPairs env.secret shape clientParams bound
    if env.connectionFails then
      ([.upstreamQuery pairs], .err (.Connection "connect error"))
    else
      ([.upstreamQuery pairs],
        .relay (relayResponse env.upstreamStatus env.upstreamHeaders).1
          (relayResponse env.upstreamStatus env.upstreamHeaders).2)
  else ([], .err (.InvalidConfig "invalid electric_url"))

/-- The streaming handler build_proxy_handler installs for a route: per
scope, extract the scope key (organization_id from the query string for
Org and OrgWithUser, the path capture for Project and Issue, the
authenticated user for User), run the scope's authorization check, and
only then forward through proxy_table with the scope's bound values.
Extraction failure is the axum extractor rejection. The serde-flattened
params map of OrgShapeQuery holds the query pairs other than
organization_id; ShapeQuery holds them all. -/
def runStream (r : ShapeRouteReg) (env : Env) (u : String) (req : Request) :
    List Event × StreamResp :=
  match r.scope with
  | .Org =>
    match lookupParam req.queryParams "organization_id" with
    | none => ([], .reject 400)
    | some org =>
      if env.isMember org u then
        let pr := proxyTableRun env r.shape
          (req.queryParams.filter (fun p => p.1 != "organization_id"))
          (streamBoundValues .Org org u)
        (authEvent .Org org u :: pr.1, pr.2)
      else ([authEvent .Org org u], .err (.Authorization "not a member"))
  | .OrgWithUser =>
    match lookupParam req.queryParams "organization_id" with
    | none => ([], .reject 400)
    | some org =>
      if env.isMember org u then
        let pr := proxyTableRun env r.shape
          (req.queryParams.filter (fun p => p.1 != "organization_id"))
          (streamBoundValues .OrgWithUser org u)
        (authEvent .OrgWithUser org u :: pr.1, pr.2)
      else ([authEvent .OrgWithUser org u], .err (.Authorization "not a member"))
  | .Project =>
    match lookupParam req.pathParams "project_id" with
    | none => ([], .reject 400)
    | some pid =>
      if env.projAccess pid u then
        let pr := proxyTableRun env r.shape req.queryParams
          (streamBoundValues .Project pid u)
        (authEvent .Project pid u :: pr.1, pr.2)
      else ([authEvent .Project pid u], .err (.Authorization "no project access"))
  | .Issue =>
    match lookupParam req.pathParams "issue_id" with
    | none => ([], .reject 400)
    | some iid =>
      if env.issueAccess iid u then
        let pr := proxyTableRun env r.shape req.queryParams
          (streamBoundValues .Issue iid u)
        (authEvent .Issue iid u :: pr.1, pr.2)
      else ([authEvent .Issue iid u], .err (.Authorization "no issue access"))
  | .User =>
    proxyTableRun env r.shape req.queryParams (streamBoundValues .User "" u)

/-- The fallback handler registered for a route: per scope, extract the
scope key from the declared Query struct, run the same authorization
check (surfaced as a forbidden error response when it fails, per the
spec's authorization-failure taxonomy), query the repository with the
scope keys, and wrap the rows in the single-field envelope or map a
store failure to the generic failed-to-list internal error. -/
def runFallback (r : ShapeRouteReg) (env : Env) (u : String) (req : Request) :
    List Event × FbResp :=
  match r.scope with
  | .Org =>
    match lookupParam req.queryParams "organization_id" with
    | none => ([], .err 400 "missing organization_id")
    | some org =>
      if env.isMember org u then
        match env.storeList r.shape.table [org] with
        | .ok rows =>
          ([authEvent .Org org u, .storeList r.shape.table [org]],
            .ok r.envelopeField rows)
        | .error _ =>
          ([authEvent .Org org u, .storeList r.shape.table [org]],
            .err 500 ("failed to list " ++ r.resource))
      else ([authEvent .Org org u], .err 403 "forbidden")
  | .OrgWithUser =>
    match lookupParam req.queryParams "organization_id" with
    | none => ([], .err 400 "missing organization_id")
    | some org =>
      if env.isMember org u then
        match env.storeList r.shape.table [org, u] with
        | .ok rows =>
          ([authEvent .OrgWithUser org u, .storeList r.shape.table [org, u]],
            .ok r.envelopeField rows)
        | .error _ =>
          ([authEvent .OrgWithUser org u, .storeList r.shape.table [org, u]],
            .err 500 ("failed to list " ++ r.resource))
      else ([authEvent .OrgWithUser org u], .err 403 "forbidden")
  | .Project =>
    match lookupParam req.queryParams "project_id" with
    | none => ([], .err 400 "missing project_id")
    | some pid =>
      if env.projAccess pid u then
        match env.storeList r.shape.table [pid] with
        | .ok rows =>
          ([authEvent .Project pid u, .storeList r.shape.table [pid]],
            .ok r.envelopeField rows)
        | .error _ =>
          ([authEvent .Project pid u, .storeList r.shape.table [pid]],
            .err 500 ("failed to list " ++ r.resource))
      else ([authEvent .Project pid u], .err 403 "forbidden")
  | .Issue =>
    match lookupParam req.queryParams "issue_id" with
    | none => ([], .err 400 "missing issue_id")
    | some iid =>
      if env.issueAccess iid u then
        match env.storeList r.shape.table [iid] with
        | .ok rows =>
          ([authEvent .Issue iid u, .storeList r.shape.table [iid]],
            .ok r.envelopeField rows)
        | .error _ =>
          ([authEvent .Issue iid u, .storeList r.shape.table [iid]],
            .err 500 ("failed to list " ++ r.resource))
      else ([authEvent .Issue iid u], .err 403 "forbidden")
  | .User =>
    match env.storeList r.shape.table [u] with
    | .ok rows =>
      ([.storeList r.shape.table [u]], .ok r.envelopeField rows)
    | .error _ =>
      ([.storeList r.shape.table [u]],
        .err 500 ("failed to list " ++ r.resource))

/-- The scope key the fallback handler's Query extractor reads, per
scope. -/
def fallbackAuthKey (scope : ShapeScope) (req : Request) : Option String :=
  match scope with
  | .Org | .OrgWithUser => lookupParam req.queryParams "organization_id"
  | .Project => lookupParam req.queryParams "project_id"
  | .Issue => lookupParam req.queryParams "issue_id"
  | .User => none

/-- The scope key the streaming handler's extractors read, per scope. -/
def streamAuthKey (scope : ShapeScope) (req : Request) : Option String :=
  match scope with
  | .Org | .OrgWithUser => lookupParam req.queryParams "organization_id"
  | .Project => lookupParam req.pathParams "project_id"
  | .Issue => lookupParam req.pathParams "issue_id"
  | .User => none

/-- The authorization predicate each scope evaluates on its key. -/
def checkScope (scope : ShapeScope) (env : Env) (u key : String) : Bool :=
  match scope with
  | .Org | .OrgWithUser => env.isMember key u
  | .Project => env.projAccess key u
  | .Issue => env.issueAccess key u
  | .User => true

-- =============================================================================
-- Scope-parameter extraction descriptors (for the registration contract)
-- =============================================================================

/-- Where a handler obtains its scope identifier: a named query-string
parameter, a named URL path capture, or nowhere. -/
inductive ParamSource where
  | queryParam (name : String)
  | pathParam (name : String)
  | noParam
deriving DecidableEq, BEq, Repr

/-- The extraction a fallback query struct performs; all four structs in
crates/remote/src/shape_route.rs are axum Query extractors, so every
scope identifier a fallback handler reads comes from the query string. -/
def fallbackKindSource : FallbackParamKind → ParamSource
  | .OrgQuery => .queryParam "organization_id"
  | .ProjectQuery => .queryParam "project_id"
  | .IssueQuery => .queryParam "issue_id"
  | .NoParams => .noParam

/-- The extraction the streaming handler performs for each scope in
build_proxy_handler: Org and OrgWithUser read organization_id from the
query string, Project and Issue read the URL path capture, User reads
nothing. -/
def streamScopeSource : ShapeScope → ParamSource
  | .Org => .queryParam "organization_id"
  | .OrgWithUser => .queryParam "organization_id"
  | .Project => .pathParam "project_id"
  | .Issue => .pathParam "issue_id"
  | .User => .noParam

/-- The amended registration contract for fallback extraction: the same
identifier name as the streaming route's scope, but always read from the
query string (User-scoped handlers read nothing). -/
def expectedFallbackSource : ShapeScope → ParamSource
  | .Org => .queryParam "organization_id"
  | .OrgWithUser => .queryParam "organization_id"
  | .Project => .queryParam "project_id"
  | .Issue => .queryParam "issue_id"
  | .User => .noParam

-- =============================================================================
-- Project-issues fallback, row-level model (fallback_list_issues)
-- =============================================================================

/-- An issues-table row, reduced to the columns the PROJECT_ISSUES
predicate touches. -/
structure IssueRow where
  id : String
  project_id : String
deriving DecidableEq, Repr

/-- Environment of the issues fallback: the issues table, the project
access predicate, and whether the store call fails. -/
structure IssueEnv where
  issues : List IssueRow
  projAccess : String → String → Bool
  dbFail : Bool

/-- Modelled from the spec: the repository capability
IssueRepository::list_by_project is outside the provided sources; the
spec defines it as the rows of the issues table where project_id equals
the given id. -/
def listIssuesByProject (env : IssueEnv) (pid : String) : List IssueRow :=
  env.issues.filter (fun row => row.project_id == pid)

/-- The fallback_list_issues handler at row level: extract project_id
from the query string, check project access, delegate to the repository
and return its rows, or the generic internal error on store failure. -/
def fallbackListIssuesRun (env : IssueEnv) (u : String) (req : Request) :
    Except (Nat × String) (List IssueRow) :=
  match lookupParam req.queryParams "project_id" with
  | none => .error (400, "missing project_id")
  | some pid =>
    if env.projAccess pid u then
      if env.dbFail then .error (500, "failed to list issues")
      else .ok (listIssuesByProject env pid)
    else .error (403, "forbidden")

/-- Rows of an issues-fallback outcome (empty on error). -/
def issueRowsOf : Except (Nat × String) (List IssueRow) → List IssueRow
  | .ok rows => rows
  | .error _ => []

-- =============================================================================
-- Concrete witness inputs
-- =============================================================================

/-- An environment whose authorization oracles all deny. -/
def envDeny : Env :=
  { isMember := fun _ _ => false
    projAccess := fun _ _ => false
    issueAccess := fun _ _ => false
    storeList := fun _ _ => .ok []
    cfgValid := true
    secret := none
    connectionFails := false
    upstreamStatus := 200
    upstreamHeaders := [] }

/-- An environment whose authorization oracles all grant. -/
def envAllow : Env :=
  { isMember := fun _ _ => true
    projAccess := fun _ _ => true
    issueAccess := fun _ _ => true
    storeList := fun _ _ => .ok []
    cfgValid := true
    secret := none
    connectionFails := false
    upstreamStatus := 200
    upstreamHeaders := [] }

/-- A request carrying an organization_id query parameter. -/
def reqOrg : Request := { pathParams := [], queryParams := [("organization_id", "org1")] }

/-- The granting environment with a failing data store. -/
def envStoreFail : Env := { envAllow with storeList := fun _ _ => .error "boom" }

/-- A two-project issues table with access granted. -/
def issueEnvW : IssueEnv :=
  { issues := [{ id := "i1", project_id := "P1" }, { id := "i2", project_id := "P2" }]
    projAccess := fun _ _ => true
    dbFail := false }

/-- A fallback request whose query string selects project P1. -/
def reqProjP1 : Request := { pathParams := [], queryParams := [("project_id", "P1")] }

-- =============================================================================
-- Claim theorems: registry-level invariants
-- =============================================================================

/-- C5: for every ShapeDefinition in the shape registry, the number of
ordinal placeholders occurring in its where_clause equals the length of
its params list. -/
theorem shape_placeholder_count_eq_params_length :
    allShapes.all
      (fun s => countPlaceholders s.where_clause == s.params.length) = true := by
  decide

theorem runFallback_ok_field (r : ShapeRouteReg) (env : Env) (u : String)
    (req : Request) (field : String) (rows : List String)
    (h : (runFallback r env u req).2 = FbResp.ok field rows) :
    field = r.envelopeField := by
  rcases r with ⟨shape, scope, furl, fq, efield, res⟩
  cases scope with
  | Org =>
    cases hl : lookupParam req.queryParams "organization_id" with
    | none => simp [runFallback, hl] at h
    | some org =>
      cases hm : env.isMember org u with
      | false => simp [runFallback, hl, hm] at h
      | true =>
        cases hsr : env.storeList shape.table [org] with
        | ok rows2 =>
          simp [runFallback, hl, hm, hsr] at h
          exact h.1.symm
        | error e => simp [runFallback, hl, hm, hsr] at h
  | OrgWithUser =>
    cases hl : lookupParam req.queryParams "organization_id" with
    | none => simp [runFallback, hl] at h
    | some org =>
      cases hm : env.isMember org u with
      | false => simp [runFallback, hl, hm] at h
      | true =>
        cases hsr : env.storeList shape.table [org, u] with
        | ok rows2 =>
          simp [runFallback, hl, hm, hsr] at h
          exact h.1.symm
        | error e => simp [runFallback, hl, hm, hsr] at h
  | Project =>
    cases hl : lookupParam req.queryParams "project_id" with
    | none => simp [runFallback, hl] at h
    | some pid =>
      cases hm : env.projAccess pid u with
      | false => simp [runFallback, hl, hm] at h
      | true =>
        cases hsr : env.storeList shape.table [pid] with
        | ok rows2 =>
          simp [runFallback, hl, hm, hsr] at h
          exact h.1.symm
        | error e => simp [runFallback, hl, hm, hsr] at h
  | Issue =>
    cases hl : lookupParam req.queryParams "issue_id" with
    | none => simp [runFallback, hl] at h
    | some iid =>
      cases hm : env.issueAccess iid u with
      | false => simp [runFallback, hl, hm] at h
      | true =>
        cases hsr : env.storeList shape.table [iid] with
        | ok rows2 =>
          simp [runFallback, hl, hm, hsr] at h
          exact h.1.symm
        | error e => simp [runFallback, hl, hm, hsr] at h
  | User =>
    cases hsr : env.storeList shape.table [u] with
    | ok rows2 =>
      simp [runFallback, hsr] at h
      exact h.1.symm
    | error e => simp [runFallback, hsr] at h

/-- C7: for every registered shape route, the fallback success envelope's
single JSON field name equals the shape's table name, and any successful
fallback response indeed carries that field name. -/
theorem fallback_envelope_field_eq_table :
    (all_shape_routes.all (fun r => r.envelopeField == r.shape.table) = true)
    ∧ (∀ r ∈ all_shape_routes, ∀ (env : Env) (u : String) (req : Request)
        (field : String) (rows : List String),
        (runFallback r env u req).2 = FbResp.ok field rows →
        field = r.shape.table) := by
  refine ⟨by decide, ?_⟩
  intro r hr env u req field rows h
  have hf := runFallback_ok_field r env u req field rows h
  have hall : all_shape_routes.all (fun r => r.envelopeField == r.shape.table) = true := by
    decide
  have ht := List.all_eq_true.mp hall r hr
  simp only [beq_iff_eq] at ht
  rw [hf, ht]

/-- C7 witness: a successful projects fallback response carries the
projects field. -/
theorem fallback_envelope_field_eq_table_witness :
    "projects" = projectsRoute.shape.table :=
  fallback_envelope_field_eq_table.2 projectsRoute (by simp [all_shape_routes])
    envAllow "u1" reqOrg "projects" [] (by decide)

-- =============================================================================
-- Lemmas about the upstream query pairs
-- =============================================================================

theorem paramsKey_head (i : Nat) : (paramsKey i).data.head? = some 'p' := by
  unfold paramsKey
  rcases Nat.repr i with ⟨l⟩
  simp [String.data_append]

theorem paramsKey_ne (i : Nat) (s : String) (h : s.data.head? ≠ some 'p') :
    paramsKey i ≠ s := by
  intro he
  exact h (he ▸ paramsKey_head i)

theorem mem_paramsPairs_key {bound : List String} {q : String × String}
    (h : q ∈ paramsPairs bound) : ∃ i, q.1 = paramsKey (i + 1) := by
  simp only [paramsPairs, List.mem_map] at h
  obtain ⟨a, _, rfl⟩ := h
  exact ⟨a.1, rfl⟩

theorem isElectricParam_secret : isElectricParam "secret" = false := by decide

theorem isElectricParam_paramsKey (i : Nat) :
    isElectricParam (paramsKey i) = false := by
  have h1 := paramsKey_ne i "offset" (by decide)
  have h2 := paramsKey_ne i "handle" (by decide)
  have h3 := paramsKey_ne i "live" (by decide)
  have h4 := paramsKey_ne i "cursor" (by decide)
  have h5 := paramsKey_ne i "columns" (by decide)
  simp [isElectricParam, ELECTRIC_PARAMS, h1, h2, h3, h4, h5]

/-- C2: the upstream URL proxy_table builds always carries the shape's
table and where_clause under the fixed keys; the keys table and where can
carry no other values regardless of the client parameters; every pair
whose key is any params[i] comes from the server's bound values, never
from the client; every allowlisted client pair is forwarded; and a
client pair whose key is outside the allowlist is absent from the
forwarded request unless it literally coincides with one of the
server-generated pairs (which the server emits independently of the
client). -/
theorem proxy_upstream_url_fixed_and_allowlisted
    (secret : Option String) (shape : ShapeDefinition)
    (cp : List (String × String)) (bound : List String) :
    (("table", shape.table) ∈ proxyQueryPairs secret shape cp bound)
    ∧ (("where", shape.where_clause) ∈ proxyQueryPairs secret shape cp bound)
    ∧ (∀ v, ("table", v) ∈ proxyQueryPairs secret shape cp bound → v = shape.table)
    ∧ (∀ v, ("where", v) ∈ proxyQueryPairs secret shape cp bound → v = shape.where_clause)
    ∧ (∀ i v, (paramsKey i, v) ∈ proxyQueryPairs secret shape cp bound →
        (paramsKey i, v) ∈ paramsPairs bound)
    ∧ (∀ p ∈ cp, isElectricParam p.1 = true → p ∈ proxyQueryPairs secret shape cp bound)
    ∧ (∀ p ∈ cp, isElectricParam p.1 = false →
        p ∉ ("table", shape.table) :: ("where", shape.where_clause) ::
          (paramsPairs bound ++ secretPairs secret) →
        p ∉ proxyQueryPairs secret shape cp bound) := by
  refine ⟨by simp [proxyQueryPairs], by simp [proxyQueryPairs], ?_, ?_, ?_, ?_, ?_⟩
  · intro v hv
    simp only [proxyQueryPairs, List.mem_cons, List.mem_append] at hv
    rcases hv with h | h | (h | h) | h
    · exact (Prod.mk.injEq .. ▸ h).2
    · exact absurd (Prod.mk.injEq .. ▸ h).1 (by decide)
    · obtain ⟨i, hi⟩ := mem_paramsPairs_key h
      exact absurd hi.symm (paramsKey_ne (i + 1) "table" (by decide))
    · have h2 : isElectricParam "table" = true := (List.mem_filter.mp h).2
      exact absurd h2 (by decide)
    · cases secret with
      | none => simp [secretPairs] at h
      | some s =>
        simp only [secretPairs, List.mem_singleton] at h
        exact absurd (Prod.mk.injEq .. ▸ h).1 (by decide)
  · intro v hv
    simp only [proxyQueryPairs, List.mem_cons, List.mem_append] at hv
    rcases hv with h | h | (h | h) | h
    · exact absurd (Prod.mk.injEq .. ▸ h).1 (by decide)
    · exact (Prod.mk.injEq .. ▸ h).2
    · obtain ⟨i, hi⟩ := mem_paramsPairs_key h
      exact absurd hi.symm (paramsKey_ne (i + 1) "where" (by decide))
    · have h2 : isElectricParam "where" = true := (List.mem_filter.mp h).2
      exact absurd h2 (by decide)
    · cases secret with
      | none => simp [secretPairs] at h
      | some s =>
        simp only [secretPairs, List.mem_singleton] at h
        exact absurd (Prod.mk.injEq .. ▸ h).1 (by decide)
  · intro i v hv
    simp only [proxyQueryPairs, List.mem_cons, List.mem_append] at hv
    rcases hv with h | h | (h | h) | h
    · exact absurd (Prod.mk.injEq .. ▸ h).1 (paramsKey_ne i "table" (by decide))
    · exact absurd (Prod.mk.injEq .. ▸ h).1 (paramsKey_ne i "where" (by decide))
    · exact h
    · have h2 : isElectricParam (paramsKey i) = true := (List.mem_filter.mp h).2
      rw [isElectricParam_paramsKey] at h2
      exact absurd h2 (by decide)
    · cases secret with
      | none => simp [secretPairs] at h
      | some s =>
        simp only [secretPairs, List.mem_singleton] at h
        exact absurd (Prod.mk.injEq .. ▸ h).1 (paramsKey_ne i "secret" (by decide))
  · intro p hp he
    simp only [proxyQueryPairs, List.mem_cons, List.mem_append]
    exact Or.inr (Or.inr (Or.inl (Or.inr (List.mem_filter.mpr ⟨hp, he⟩))))
  · intro p hp he hns hmem
    simp only [List.mem_cons, List.mem_append] at hns
    simp only [proxyQueryPairs, List.mem_cons, List.mem_append] at hmem
    rcases hmem with h | h | (h | h) | h
    · exact hns (Or.inl h)
    · exact hns (Or.inr (Or.inl h))
    · exact hns (Or.inr (Or.inr (Or.inl h)))
    · have h2 : isElectricParam p.1 = true := (List.mem_filter.mp h).2
      rw [he] at h2
      exact Bool.false_ne_true h2
    · exact hns (Or.inr (Or.inr (Or.inr h)))

/-- C2 witness: concrete instantiations — a client-supplied params[1]
pair is absent from the forwarded pairs, a plain non-allowlisted client
key is absent, and the params[1] pair the request does carry is the
server-bound one. -/
theorem proxy_upstream_url_fixed_and_allowlisted_witness :
    (("params[1]", "evil")
      ∉ proxyQueryPairs none PROJECTS_SHAPE [("params[1]", "evil"), ("evil", "1")] ["o1"])
    ∧ (("evil", "1")
      ∉ proxyQueryPairs none PROJECTS_SHAPE [("params[1]", "evil"), ("evil", "1")] ["o1"])
    ∧ (("params[1]", "o1") ∈ paramsPairs ["o1"]) := by
  have h := proxy_upstream_url_fixed_and_allowlisted none PROJECTS_SHAPE
    [("params[1]", "evil"), ("evil", "1")] ["o1"]
  refine ⟨?_, ?_, ?_⟩
  · exact h.2.2.2.2.2.2 ("params[1]", "evil") (by decide) (by decide) (by decide)
  · exact h.2.2.2.2.2.2 ("evil", "1") (by decide) (by decide) (by decide)
  · exact h.2.2.2.2.1 1 "o1" (by decide)

/-- C9: the forwarded pairs contain a secret pair exactly when the server
configuration holds one (with the configured value), and the forwarded
request is unchanged between two client parameter maps whose allowlisted
portions agree — in particular a client-supplied secret key has no
influence. -/
theorem secret_only_from_config
    (secret : Option String) (shape : ShapeDefinition)
    (cp : List (String × String)) (bound : List String) (s : String) :
    ((("secret", s) ∈ proxyQueryPairs secret shape cp bound) ↔ secret = some s)
    ∧ (∀ cp2 : List (String × String),
        cp.filter (fun p => isElectricParam p.1)
          = cp2.filter (fun p => isElectricParam p.1) →
        proxyQueryPairs secret shape cp bound
          = proxyQueryPairs secret shape cp2 bound) := by
  constructor
  · constructor
    · intro h
      simp only [proxyQueryPairs, List.mem_cons, List.mem_append] at h
      rcases h with h | h | (h | h) | h
      · exact absurd (Prod.mk.injEq .. ▸ h).1 (by decide)
      · exact absurd (Prod.mk.injEq .. ▸ h).1 (by decide)
      · obtain ⟨i, hi⟩ := mem_paramsPairs_key h
        exact absurd hi.symm (paramsKey_ne (i + 1) "secret" (by decide))
      · have h2 : isElectricParam "secret" = true := (List.mem_filter.mp h).2
        exact absurd h2 (by decide)
      · cases secret with
        | none => simp [secretPairs] at h
        | some t =>
          simp only [secretPairs, List.mem_singleton] at h
          exact congrArg some (Prod.mk.injEq .. ▸ h).2.symm
    · intro h
      subst h
      simp [proxyQueryPairs, secretPairs]
  · intro cp2 hfil
    simp [proxyQueryPairs, hfil]

/-- C9 witness: with no configured secret, a client-supplied secret pair
is not forwarded, and dropping it leaves the forwarded pairs unchanged. -/
theorem secret_only_from_config_witness :
    (("secret", "evil") ∉ proxyQueryPairs none PROJECTS_SHAPE [("secret", "evil")] ["o1"])
    ∧ proxyQueryPairs none PROJECTS_SHAPE [("secret", "evil")] ["o1"]
        = proxyQueryPairs none PROJECTS_SHAPE [] ["o1"] := by
  have h := secret_only_from_config none PROJECTS_SHAPE [("secret", "evil")] ["o1"] "evil"
  exact ⟨fun hm => Option.noConfusion (h.1.mp hm), h.2 [] (by decide)⟩

-- =============================================================================
-- Header relay lemmas and C8
-- =============================================================================

theorem getAll_append (a b : List (String × String)) (q : String) :
    getAll (a ++ b) q = getAll a q ++ getAll b q := by
  simp [getAll, List.filter_append]

theorem getAll_headerInsert (hs : List (String × String)) (k v q : String) :
    getAll (headerInsert hs k v) q = if q = k then [v] else getAll hs q := by
  unfold headerInsert
  rw [getAll_append]
  by_cases hq : q = k
  · subst hq
    have h1 : getAll (hs.filter (fun p => p.1 != q)) q = [] := by
      unfold getAll
      rw [List.filter_filter]
      have h0 : (hs.filter fun a => a.1 == q && a.1 != q) = [] := by
        rw [List.filter_eq_nil_iff]
        intro a _
        by_cases ha : a.1 = q <;> simp [ha]
      rw [h0]
      rfl
    simp [h1, getAll]
  · have h1 : getAll (hs.filter (fun p => p.1 != k)) q = getAll hs q := by
      unfold getAll
      rw [List.filter_filter]
      congr 1
      apply List.filter_congr
      intro a _
      by_cases ha : a.1 = q <;> simp [ha, hq]
    have h2 : getAll [(k, v)] q = [] := by
      simp [getAll, Ne.symm hq]
    simp [h1, h2, hq]

theorem getAll_copy_loop (up : List (String × String)) (k : String)
    (acc : List (String × String)) :
    getAll (up.foldl
      (fun acc p => if isDroppedHeader p.1 then acc else headerInsert acc p.1 p.2)
      acc) k =
      if isDroppedHeader k then getAll acc k
      else match lastVal up k with
        | some v => [v]
        | none => getAll acc k := by
  induction up generalizing acc with
  | nil => simp [lastVal]
  | cons p rest ih =>
    simp only [List.foldl_cons]
    rw [ih]
    cases hd : isDroppedHeader k with
    | true =>
      cases hp : isDroppedHeader p.1 with
      | true => simp [hd, hp]
      | false =>
        have hne : k ≠ p.1 := by
          intro he
          rw [← he, hd] at hp
          cases hp
        simp [hd, hp, getAll_headerInsert, hne]
    | false =>
      cases hl : lastVal rest k with
      | some v => simp [hd, lastVal, hl]
      | none =>
        cases hp2 : (p.1 == k) with
        | true =>
          have hp1 : p.1 = k := by simpa using hp2
          have hpd : isDroppedHeader p.1 = false := by rw [hp1]; exact hd
          simp [hd, lastVal, hl, hp2, hpd, getAll_headerInsert, hp1]
        | false =>
          have hp1 : p.1 ≠ k := by simpa using hp2
          cases hpd : isDroppedHeader p.1 with
          | true => simp [hd, lastVal, hl, hp2, hpd]
          | false => simp [hd, lastVal, hl, hp2, hpd, getAll_headerInsert, Ne.symm hp1]

/-- C8 counterexample to the claim as stated: an upstream Vary header is
not Content-Encoding or Content-Length, yet it is not carried unchanged
into the relayed response — the inserted Vary: Authorization replaces
it. -/
theorem relay_headers_counterexample :
    ("vary", "accept-encoding") ∈ ([("vary", "accept-encoding")] : List (String × String))
    ∧ isDroppedHeader "vary" = false
    ∧ ("vary", "accept-encoding") ∉ relayHeaders [("vary", "accept-encoding")] := by
  decide

/-- C8 amended: the relayed response keeps the upstream status; its Vary
header is exactly Authorization (replacing any upstream Vary);
Content-Encoding and Content-Length are absent; and every other header
name carries the last upstream value for that name (repeated values of a
name collapse to the last, by HeaderMap insert semantics). -/
theorem relay_preserves_status_and_headers (s : Nat)
    (up : List (String × String)) :
    (relayResponse s up).1 = s
    ∧ getAll (relayHeaders up) "vary" = ["Authorization"]
    ∧ getAll (relayHeaders up) "content-encoding" = []
    ∧ getAll (relayHeaders up) "content-length" = []
    ∧ (∀ k, k ≠ "vary" → isDroppedHeader k = false →
        getAll (relayHeaders up) k = (lastVal up k).toList) := by
  refine ⟨rfl, ?_, ?_, ?_, ?_⟩
  · unfold relayHeaders
    rw [getAll_headerInsert]
    simp
  · unfold relayHeaders copyHeaders
    rw [getAll_headerInsert]
    rw [if_neg (by decide)]
    rw [getAll_copy_loop]
    simp [isDroppedHeader, getAll]
  · unfold relayHeaders copyHeaders
    rw [getAll_headerInsert]
    rw [if_neg (by decide)]
    rw [getAll_copy_loop]
    simp [isDroppedHeader, getAll]
  · intro k hk hd
    unfold relayHeaders copyHeaders
    rw [getAll_headerInsert]
    rw [if_neg hk]
    rw [getAll_copy_loop]
    rw [hd]
    cases lastVal up k <;> simp [getAll]

/-- C8 witness: a concrete non-special header is carried with its
upstream value. -/
theorem relay_preserves_status_and_headers_witness :
    getAll (relayHeaders [("etag", "abc")]) "etag"
      = (lastVal [("etag", "abc")] "etag").toList :=
  (relay_preserves_status_and_headers 200 [("etag", "abc")]).2.2.2.2 "etag"
    (by decide) (by decide)

-- =============================================================================
-- Authorization-before-query lemmas (C1)
-- =============================================================================

theorem fallback_auth_first (r : ShapeRouteReg) (hs : r.scope ≠ ShapeScope.User)
    (env : Env) (u : String) (req : Request) :
    (∀ k, fallbackAuthKey r.scope req = some k →
      checkScope r.scope env u k = false →
      (runFallback r env u req).2.status = 403
        ∧ queryEvents (runFallback r env u req).1 = [])
    ∧ (queryEvents (runFallback r env u req).1 ≠ [] →
        ∃ kind keys rest,
          (runFallback r env u req).1 = Event.authCheck kind keys :: rest) := by
  rcases r with ⟨shape, scope, furl, fq, field, res⟩
  cases scope with
  | Org =>
    constructor
    · intro k hk hc
      simp only [fallbackAuthKey] at hk
      simp only [checkScope] at hc
      simp [runFallback, hk, hc, FbResp.status, queryEvents, authEvent, Event.isQuery]
    · intro hq
      cases hl : lookupParam req.queryParams "organization_id" with
      | none => simp [runFallback, hl, queryEvents] at hq
      | some org =>
        cases hm : env.isMember org u with
        | false =>
          simp [runFallback, hl, hm, queryEvents, authEvent, Event.isQuery] at hq
        | true =>
          cases hsr : env.storeList shape.table [org] with
          | ok rows =>
            exact ⟨"membership", [org, u], [Event.storeList shape.table [org]],
              by simp [runFallback, hl, hm, hsr, authEvent]⟩
          | error e =>
            exact ⟨"membership", [org, u], [Event.storeList shape.table [org]],
              by simp [runFallback, hl, hm, hsr, authEvent]⟩
  | OrgWithUser =>
    constructor
    · intro k hk hc
      simp only [fallbackAuthKey] at hk
      simp only [checkScope] at hc
      simp [runFallback, hk, hc, FbResp.status, queryEvents, authEvent, Event.isQuery]
    · intro hq
      cases hl : lookupParam req.queryParams "organization_id" with
      | none => simp [runFallback, hl, queryEvents] at hq
      | some org =>
        cases hm : env.isMember org u with
        | false =>
          simp [runFallback, hl, hm, queryEvents, authEvent, Event.isQuery] at hq
        | true =>
          cases hsr : env.storeList shape.table [org, u] with
          | ok rows =>
            exact ⟨"membership", [org, u], [Event.storeList shape.table [org, u]],
              by simp [runFallback, hl, hm, hsr, authEvent]⟩
          | error e =>
            exact ⟨"membership", [org, u], [Event.storeList shape.table [org, u]],
              by simp [runFallback, hl, hm, hsr, authEvent]⟩
  | Project =>
    constructor
    · intro k hk hc
      simp only [fallbackAuthKey] at hk
      simp only [checkScope] at hc
      simp [runFallback, hk, hc, FbResp.status, queryEvents, authEvent, Event.isQuery]
    · intro hq
      cases hl : lookupParam req.queryParams "project_id" with
      | none => simp [runFallback, hl, queryEvents] at hq
      | some pid =>
        cases hm : env.projAccess pid u with
        | false =>
          simp [runFallback, hl, hm, queryEvents, authEvent, Event.isQuery] at hq
        | true =>
          cases hsr : env.storeList shape.table [pid] with
          | ok rows =>
            exact ⟨"project_access", [pid, u], [Event.storeList shape.table [pid]],
              by simp [runFallback, hl, hm, hsr, authEvent]⟩
          | error e =>
            exact ⟨"project_access", [pid, u], [Event.storeList shape.table [pid]],
              by simp [runFallback, hl, hm, hsr, authEvent]⟩
  | Issue =>
    constructor
    · intro k hk hc
      simp only [fallbackAuthKey] at hk
      simp only [checkScope] at hc
      simp [runFallback, hk, hc, FbResp.status, queryEvents, authEvent, Event.isQuery]
    · intro hq
      cases hl : lookupParam req.queryParams "issue_id" with
      | none => simp [runFallback, hl, queryEvents] at hq
      | some iid =>
        cases hm : env.issueAccess iid u with
        | false =>
          simp [runFallback, hl, hm, queryEvents, authEvent, Event.isQuery] at hq
        | true =>
          cases hsr : env.storeList shape.table [iid] with
          | ok rows =>
            exact ⟨"issue_access", [iid, u], [Event.storeList shape.table [iid]],
              by simp [runFallback, hl, hm, hsr, authEvent]⟩
          | error e =>
            exact ⟨"issue_access", [iid, u], [Event.storeList shape.table [iid]],
              by simp [runFallback, hl, hm, hsr, authEvent]⟩
  | User => exact absurd rfl hs

theorem stream_auth_first (r : ShapeRouteReg) (hs : r.scope ≠ ShapeScope.User)
    (env : Env) (u : String) (req : Request) :
    (∀ k, streamAuthKey r.scope req = some k →
      checkScope r.scope env u k = false →
      (runStream r env u req).2.status = 403
        ∧ queryEvents (runStream r env u req).1 = [])
    ∧ (queryEvents (runStream r env u req).1 ≠ [] →
        ∃ kind keys rest,
          (runStream r env u req).1 = Event.authCheck kind keys :: rest) := by
  rcases r with ⟨shape, scope, furl, fq, field, res⟩
  cases scope with
  | Org =>
    constructor
    · intro k hk hc
      simp only [streamAuthKey] at hk
      simp only [checkScope] at hc
      simp [runStream, hk, hc, StreamResp.status, ProxyError.intoResponse,
        queryEvents, authEvent, Event.isQuery]
    · intro hq
      cases hl : lookupParam req.queryParams "organization_id" with
      | none => simp [runStream, hl, queryEvents] at hq
      | some org =>
        cases hm : env.isMember org u with
        | false =>
          simp [runStream, hl, hm, queryEvents, authEvent, Event.isQuery] at hq
        | true =>
          exact ⟨"membership", [org, u],
            (proxyTableRun env shape
              (req.queryParams.filter (fun p => p.1 != "organization_id"))
              (streamBoundValues .Org org u)).1,
            by simp [runStream, hl, hm, authEvent]⟩
  | OrgWithUser =>
    constructor
    · intro k hk hc
      simp only [streamAuthKey] at hk
      simp only [checkScope] at hc
      simp [runStream, hk, hc, StreamResp.status, ProxyError.intoResponse,
        queryEvents, authEvent, Event.isQuery]
    · intro hq
      cases hl : lookupParam req.queryParams "organization_id" with
      | none => simp [runStream, hl, queryEvents] at hq
      | some org =>
        cases hm : env.isMember org u with
        | false =>
          simp [runStream, hl, hm, queryEvents, authEvent, Event.isQuery] at hq
        | true =>
          exact ⟨"membership", [org, u],
            (proxyTableRun env shape
              (req.queryParams.filter (fun p => p.1 != "organization_id"))
              (streamBoundValues .OrgWithUser org u)).1,
            by simp [runStream, hl, hm, authEvent]⟩
  | Project =>
    constructor
    · intro k hk hc
      simp only [streamAuthKey] at hk
      simp only [checkScope] at hc
      simp [runStream, hk, hc, StreamResp.status, ProxyError.intoResponse,
        queryEvents, authEvent, Event.isQuery]
    · intro hq
      cases hl : lookupParam req.pathParams "project_id" with
      | none => simp [runStream, hl, queryEvents] at hq
      | some pid =>
        cases hm : env.projAccess pid u with
        | false =>
          simp [runStream, hl, hm, queryEvents, authEvent, Event.isQuery] at hq
        | true =>
          exact ⟨"project_access", [pid, u],
            (proxyTableRun env shape req.queryParams
              (streamBoundValues .Project pid u)).1,
            by simp [runStream, hl, hm, authEvent]⟩
  | Issue =>
    constructor
    · intro k hk hc
      simp only [streamAuthKey] at hk
      simp only [checkScope] at hc
      simp [runStream, hk, hc, StreamResp.status, ProxyError.intoResponse,
        queryEvents, authEvent, Event.isQuery]
    · intro hq
      cases hl : lookupParam req.pathParams "issue_id" with
      | none => simp [runStream, hl, queryEvents] at hq
      | some iid =>
        cases hm : env.issueAccess iid u with
        | false =>
          simp [runStream, hl, hm, queryEvents, authEvent, Event.isQuery] at hq
        | true =>
          exact ⟨"issue_access", [iid, u],
            (proxyTableRun env shape req.queryParams
              (streamBoundValues .Issue iid u)).1,
            by simp [runStream, hl, hm, authEvent]⟩
  | User => exact absurd rfl hs

/-- C1: for every registered route of Org, OrgWithUser, Project or Issue
scope, on both the streaming and the fallback path: whenever the scope's
authorization check fails on the extracted scope key, the response is the
terminal 403 forbidden response and no upstream or data-store list query
is issued; and whenever a trace contains any upstream or data-store
query, the trace begins with the scope's authorization check. -/
theorem scoped_routes_authorize_before_any_query :
    ∀ r ∈ all_shape_routes, r.scope ≠ ShapeScope.User →
    ∀ (env : Env) (u : String) (req : Request),
      (∀ k, fallbackAuthKey r.scope req = some k →
        checkScope r.scope env u k = false →
        (runFallback r env u req).2.status = 403
          ∧ queryEvents (runFallback r env u req).1 = [])
      ∧ (queryEvents (runFallback r env u req).1 ≠ [] →
          ∃ kind keys rest,
            (runFallback r env u req).1 = Event.authCheck kind keys :: rest)
      ∧ (∀ k, streamAuthKey r.scope req = some k →
          checkScope r.scope env u k = false →
          (runStream r env u req).2.status = 403
            ∧ queryEvents (runStream r env u req).1 = [])
      ∧ (queryEvents (runStream r env u req).1 ≠ [] →
          ∃ kind keys rest,
            (runStream r env u req).1 = Event.authCheck kind keys :: rest) :=
  fun r _ hs env u req =>
    ⟨(fallback_auth_first r hs env u req).1,
     (fallback_auth_first r hs env u req).2,
     (stream_auth_first r hs env u req).1,
     (stream_auth_first r hs env u req).2⟩

/-- C1 witness: a non-member's request to the projects routes is
forbidden with an empty query trace on both paths. -/
theorem scoped_routes_authorize_before_any_query_witness :
    ((runFallback projectsRoute envDeny "u1" reqOrg).2.status = 403
      ∧ queryEvents (runFallback projectsRoute envDeny "u1" reqOrg).1 = [])
    ∧ ((runStream projectsRoute envDeny "u1" reqOrg).2.status = 403
      ∧ queryEvents (runStream projectsRoute envDeny "u1" reqOrg).1 = []) := by
  have h := scoped_routes_authorize_before_any_query projectsRoute
    (by simp [all_shape_routes]) (by decide) envDeny "u1" reqOrg
  exact ⟨h.1 "org1" rfl rfl, h.2.2.1 "org1" rfl rfl⟩

-- =============================================================================
-- Error-taxonomy lemmas (C6)
-- =============================================================================

theorem fallback_store_error_generic (r : ShapeRouteReg) (env : Env)
    (u : String) (req : Request) (e : String) :
    (runFallback r { env with storeList := fun _ _ => .error e } u req).2
      = (runFallback r { env with storeList := fun _ _ => .error "" } u req).2
    ∧ (queryEvents
        (runFallback r { env with storeList := fun _ _ => .error e } u req).1 ≠ [] →
        (runFallback r { env with storeList := fun _ _ => .error e } u req).2
          = FbResp.err 500 ("failed to list " ++ r.resource)) := by
  rcases r with ⟨shape, scope, furl, fq, field, res⟩
  cases scope with
  | Org =>
    cases hl : lookupParam req.queryParams "organization_id" with
    | none =>
      constructor
      · simp [runFallback, hl]
      · intro hq
        simp [runFallback, hl, queryEvents] at hq
    | some org =>
      cases hm : env.isMember org u with
      | false =>
        constructor
        · simp [runFallback, hl, hm]
        · intro hq
          simp [runFallback, hl, hm, queryEvents, authEvent, Event.isQuery] at hq
      | true =>
        constructor
        · simp [runFallback, hl, hm]
        · intro _
          simp [runFallback, hl, hm]
  | OrgWithUser =>
    cases hl : lookupParam req.queryParams "organization_id" with
    | none =>
      constructor
      · simp [runFallback, hl]
      · intro hq
        simp [runFallback, hl, queryEvents] at hq
    | some org =>
      cases hm : env.isMember org u with
      | false =>
        constructor
        · simp [runFallback, hl, hm]
        · intro hq
          simp [runFallback, hl, hm, queryEvents, authEvent, Event.isQuery] at hq
      | true =>
        constructor
        · simp [runFallback, hl, hm]
        · intro _
          simp [runFallback, hl, hm]
  | Project =>
    cases hl : lookupParam req.queryParams "project_id" with
    | none =>
      constructor
      · simp [runFallback, hl]
      · intro hq
        simp [runFallback, hl, queryEvents] at hq
    | some pid =>
      cases hm : env.projAccess pid u with
      | false =>
        constructor
        · simp [runFallback, hl, hm]
        · intro hq
          simp [runFallback, hl, hm, queryEvents, authEvent, Event.isQuery] at hq
      | true =>
        constructor
        · simp [runFallback, hl, hm]
        · intro _
          simp [runFallback, hl, hm]
  | Issue =>
    cases hl : lookupParam req.queryParams "issue_id" with
    | none =>
      constructor
      · simp [runFallback, hl]
      · intro hq
        simp [runFallback, hl, queryEvents] at hq
    | some iid =>
      cases hm : env.issueAccess iid u with
      | false =>
        constructor
        · simp [runFallback, hl, hm]
        · intro hq
          simp [runFallback, hl, hm, queryEvents, authEvent, Event.isQuery] at hq
      | true =>
        constructor
        · simp [runFallback, hl, hm]
        · intro _
          simp [runFallback, hl, hm]
  | User =>
    constructor
    · simp [runFallback]
    · intro _
      simp [runFallback]

theorem fallback_single_query (r : ShapeRouteReg) (env : Env)
    (u : String) (req : Request) :
    (queryEvents (runFallback r env u req).1).length ≤ 1 := by
  rcases r with ⟨shape, scope, furl, fq, field, res⟩
  cases scope with
  | Org =>
    cases hl : lookupParam req.queryParams "organization_id" with
    | none => simp [runFallback, hl, queryEvents]
    | some org =>
      cases hm : env.isMember org u with
      | false => simp [runFallback, hl, hm, queryEvents, authEvent, Event.isQuery]
      | true =>
        cases hsr : env.storeList shape.table [org] with
        | ok rows => simp [runFallback, hl, hm, hsr, queryEvents, authEvent, Event.isQuery]
        | error e => simp [runFallback, hl, hm, hsr, queryEvents, authEvent, Event.isQuery]
  | OrgWithUser =>
    cases hl : lookupParam req.queryParams "organization_id" with
    | none => simp [runFallback, hl, queryEvents]
    | some org =>
      cases hm : env.isMember org u with
      | false => simp [runFallback, hl, hm, queryEvents, authEvent, Event.isQuery]
      | true =>
        cases hsr : env.storeList shape.table [org, u] with
        | ok rows => simp [runFallback, hl, hm, hsr, queryEvents, authEvent, Event.isQuery]
        | error e => simp [runFallback, hl, hm, hsr, queryEvents, authEvent, Event.isQuery]
  | Project =>
    cases hl : lookupParam req.queryParams "project_id" with
    | none => simp [runFallback, hl, queryEvents]
    | some pid =>
      cases hm : env.projAccess pid u with
      | false => simp [runFallback, hl, hm, queryEvents, authEvent, Event.isQuery]
      | true =>
        cases hsr : env.storeList shape.table [pid] with
        | ok rows => simp [runFallback, hl, hm, hsr, queryEvents, authEvent, Event.isQuery]
        | error e => simp [runFallback, hl, hm, hsr, queryEvents, authEvent, Event.isQuery]
  | Issue =>
    cases hl : lookupParam req.queryParams "issue_id" with
    | none => simp [runFallback, hl, queryEvents]
    | some iid =>
      cases hm : env.issueAccess iid u with
      | false => simp [runFallback, hl, hm, queryEvents, authEvent, Event.isQuery]
      | true =>
        cases hsr : env.storeList shape.table [iid] with
        | ok rows => simp [runFallback, hl, hm, hsr, queryEvents, authEvent, Event.isQuery]
        | error e => simp [runFallback, hl, hm, hsr, queryEvents, authEvent, Event.isQuery]
  | User =>
    cases hsr : env.storeList shape.table [u] with
    | ok rows => simp [runFallback, hsr, queryEvents, Event.isQuery]
    | error e => simp [runFallback, hsr, queryEvents, Event.isQuery]

theorem proxyTableRun_single_query (env : Env) (shape : ShapeDefinition)
    (cp : List (String × String)) (bound : List String) :
    (queryEvents (proxyTableRun env shape cp bound).1).length ≤ 1 := by
  cases hc : env.cfgValid with
  | false => simp [proxyTableRun, hc, queryEvents]
  | true =>
    cases hf : env.connectionFails with
    | false => simp [proxyTableRun, hc, hf, queryEvents, Event.isQuery]
    | true => simp [proxyTableRun, hc, hf, queryEvents, Event.isQuery]

theorem stream_single_query (r : ShapeRouteReg) (env : Env)
    (u : String) (req : Request) :
    (queryEvents (runStream r env u req).1).length ≤ 1 := by
  rcases r with ⟨shape, scope, furl, fq, field, res⟩
  cases scope with
  | Org =>
    cases hl : lookupParam req.queryParams "organization_id" with
    | none => simp [runStream, hl, queryEvents]
    | some org =>
      cases hm : env.isMember org u with
      | false => simp [runStream, hl, hm, queryEvents, authEvent, Event.isQuery]
      | true =>
        have hp := proxyTableRun_single_query env shape
          (req.queryParams.filter (fun p => p.1 != "organization_id"))
          (streamBoundValues .Org org u)
        simp only [runStream, hl, hm, if_true, queryEvents, List.filter_cons] at *
        simpa [authEvent, Event.isQuery, queryEvents] using hp
  | OrgWithUser =>
    cases hl : lookupParam req.queryParams "organization_id" with
    | none => simp [runStream, hl, queryEvents]
    | some org =>
      cases hm : env.isMember org u with
      | false => simp [runStream, hl, hm, queryEvents, authEvent, Event.isQuery]
      | true =>
        have hp := proxyTableRun_single_query env shape
          (req.queryParams.filter (fun p => p.1 != "organization_id"))
          (streamBoundValues .OrgWithUser org u)
        simp only [runStream, hl, hm, if_true, queryEvents, List.filter_cons] at *
        simpa [authEvent, Event.isQuery, queryEvents] using hp
  | Project =>
    cases hl : lookupParam req.pathParams "project_id" with
    | none => simp [runStream, hl, queryEvents]
    | some pid =>
      cases hm : env.projAccess pid u with
      | false => simp [runStream, hl, hm, queryEvents, authEvent, Event.isQuery]
      | true =>
        have hp := proxyTableRun_single_query env shape req.queryParams
          (streamBoundValues .Project pid u)
        simp only [runStream, hl, hm, if_true, queryEvents, List.filter_cons] at *
        simpa [authEvent, Event.isQuery, queryEvents] using hp
  | Issue =>
    cases hl : lookupParam req.pathParams "issue_id" with
    | none => simp [runStream, hl, queryEvents]
    | some iid =>
      cases hm : env.issueAccess iid u with
      | false => simp [runStream, hl, hm, queryEvents, authEvent, Event.isQuery]
      | true =>
        have hp := proxyTableRun_single_query env shape req.queryParams
          (streamBoundValues .Issue iid u)
        simp only [runStream, hl, hm, if_true, queryEvents, List.filter_cons] at *
        simpa [authEvent, Event.isQuery, queryEvents] using hp
  | User =>
    exact proxyTableRun_single_query env shape req.queryParams
      (streamBoundValues .User "" u)

/-- C6: the error taxonomy — an upstream connection failure maps to the
502 bad-gateway response, an invalid upstream base URL maps to the
generic 500 internal error, an authorization failure maps to the 403
forbidden response; a data-store failure on any registered fallback route
yields the generic 500 failed-to-list message whose body is independent
of the underlying store error; and neither path ever issues more than one
query per request (single-shot, no retry). -/
theorem error_responses_follow_taxonomy :
    (∀ e, (ProxyError.Connection e).intoResponse
        = (502, "failed to connect to Electric service"))
    ∧ (∀ m, (ProxyError.InvalidConfig m).intoResponse
        = (500, "internal server error"))
    ∧ (∀ m, (ProxyError.Authorization m).intoResponse = (403, "forbidden"))
    ∧ (∀ r ∈ all_shape_routes, ∀ (env : Env) (u : String) (req : Request) (e : String),
        (runFallback r { env with storeList := fun _ _ => .error e } u req).2
          = (runFallback r { env with storeList := fun _ _ => .error "" } u req).2
        ∧ (queryEvents
            (runFallback r { env with storeList := fun _ _ => .error e } u req).1 ≠ [] →
            (runFallback r { env with storeList := fun _ _ => .error e } u req).2
              = FbResp.err 500 ("failed to list " ++ r.resource)))
    ∧ (∀ r ∈ all_shape_routes, ∀ (env : Env) (u : String) (req : Request),
        (queryEvents (runFallback r env u req).1).length ≤ 1
        ∧ (queryEvents (runStream r env u req).1).length ≤ 1) :=
  ⟨fun _ => rfl, fun _ => rfl, fun _ => rfl,
   fun r _ env u req e => fallback_store_error_generic r env u req e,
   fun r _ env u req =>
     ⟨fallback_single_query r env u req, stream_single_query r env u req⟩⟩

/-- C6 witness: with a concrete failing store, the projects fallback
returns the generic failed-to-list error whose body is the same whatever
the store error detail was. -/
theorem error_responses_follow_taxonomy_witness :
    (runFallback projectsRoute envStoreFail "u1" reqOrg).2
      = FbResp.err 500 "failed to list projects" := by
  have h := (error_responses_follow_taxonomy.2.2.2.1 projectsRoute
    (by simp [all_shape_routes]) envAllow "u1" reqOrg "boom").2 (by decide)
  exact h

-- =============================================================================
-- Bound values per scope (C10)
-- =============================================================================

/-- C10: for every registered route, the number of values the streaming
handler binds for its scope equals the length of the shape's params list,
and equals the number of ordinal placeholders in the shape's
where_clause — so each placeholder receives exactly one value and no
value is sent without a placeholder. -/
theorem stream_bound_values_match_placeholders :
    ∀ r ∈ all_shape_routes, ∀ (k u : String),
      (streamBoundValues r.scope k u).length = r.shape.params.length
      ∧ countPlaceholders r.shape.where_clause
          = (streamBoundValues r.scope k u).length := by
  intro r hr k u
  simp only [all_shape_routes, List.mem_cons, List.not_mem_nil, or_false] at hr
  rcases hr with rfl | rfl | rfl | rfl | rfl | rfl | rfl | rfl | rfl | rfl | rfl |
    rfl | rfl | rfl | rfl | rfl <;> exact ⟨rfl, rfl⟩

/-- C10 witness: the projects route binds one value for its one
placeholder. -/
theorem stream_bound_values_match_placeholders_witness :
    (streamBoundValues projectsRoute.scope "o1" "u1").length
        = projectsRoute.shape.params.length
    ∧ countPlaceholders projectsRoute.shape.where_clause
        = (streamBoundValues projectsRoute.scope "o1" "u1").length :=
  stream_bound_values_match_placeholders projectsRoute
    (by simp [all_shape_routes]) "o1" "u1"

-- =============================================================================
-- Fallback extraction versus scope (C4)
-- =============================================================================

/-- C4 counterexample: the project-issues route's streaming handler reads
project_id from the URL path, but its fallback handler reads project_id
from the query string, so the fallback extraction does not match the
scope's parameter shape as the streaming route defines it. -/
theorem fallback_extraction_counterexample :
    issuesRoute ∈ all_shape_routes
    ∧ streamScopeSource issuesRoute.scope = ParamSource.pathParam "project_id"
    ∧ fallbackKindSource issuesRoute.fallbackQuery
        = ParamSource.queryParam "project_id"
    ∧ ParamSource.queryParam "project_id" ≠ ParamSource.pathParam "project_id" :=
  ⟨by simp [all_shape_routes], rfl, rfl, by decide⟩

/-- C4 amended: for every registered route, the fallback handler's
extraction carries the scope's identifier under its streaming name but
always as a query-string parameter (organization_id for Org and
OrgWithUser, project_id for Project, issue_id for Issue), and User-scoped
fallback handlers accept no scope parameter. -/
theorem fallback_extraction_matches_scope_via_query :
    all_shape_routes.all
      (fun r => fallbackKindSource r.fallbackQuery
        == expectedFallbackSource r.scope) = true := by
  decide

-- =============================================================================
-- Project-issues fallback row set (C3)
-- =============================================================================

/-- C3 counterexample to the claim as stated: the fallback handler
derives the project id from the query string, not the URL path — a
request whose path binding is P1 but whose query selects P2 returns the
rows of P2, not the rows of P1. -/
theorem project_fallback_path_id_counterexample :
    ¬ (∀ (env : IssueEnv) (u : String) (req : Request) (p : String),
        lookupParam req.pathParams "project_id" = some p →
        env.projAccess p u = true →
        issueRowsOf (fallbackListIssuesRun env u req)
          = env.issues.filter (fun row => row.project_id == p)) := by
  intro h
  have hc := h
    { issues := [{ id := "i2", project_id := "P2" }]
      projAccess := fun _ _ => true
      dbFail := false }
    "u1"
    { pathParams := [("project_id", "P1")], queryParams := [("project_id", "P2")] }
    "P1" rfl rfl
  simp [fallbackListIssuesRun, listIssuesByProject, issueRowsOf, lookupParam] at hc

/-- C3 amended: for every request with valid access whose query string
carries project_id, the fallback route returns exactly the repository's
list-by-project rows for that query-derived id — the rows whose
project_id equals it — and no row of any other project. -/
theorem project_fallback_rows_match_query_id
    (env : IssueEnv) (u : String) (req : Request) (pid : String)
    (hq : lookupParam req.queryParams "project_id" = some pid)
    (ha : env.projAccess pid u = true)
    (hdb : env.dbFail = false) :
    fallbackListIssuesRun env u req
      = .ok (env.issues.filter (fun row => row.project_id == pid))
    ∧ ∀ row ∈ issueRowsOf (fallbackListIssuesRun env u req),
        row.project_id = pid := by
  have h1 : fallbackListIssuesRun env u req
      = .ok (env.issues.filter (fun row => row.project_id == pid)) := by
    simp [fallbackListIssuesRun, hq, ha, hdb, listIssuesByProject]
  refine ⟨h1, ?_⟩
  rw [h1]
  intro row hrow
  simp only [issueRowsOf] at hrow
  have h2 := (List.mem_filter.mp hrow).2
  simpa using h2

/-- C3 witness: a two-project store returns exactly the P1 rows for a P1
query. -/
theorem project_fallback_rows_match_query_id_witness :
    fallbackListIssuesRun issueEnvW "u1" reqProjP1
      = .ok (issueEnvW.issues.filter (fun row => row.project_id == "P1")) :=
  (project_fallback_rows_match_query_id issueEnvW "u1" reqProjP1 "P1"
    rfl rfl rfl).1

end AgentKanban
